import Mathlib

/-
Verification of the minishell PTY server (src/public/minishell/server.js):
a shallow embedding of its admission control, rate limiter, session
registry, stream relay, session teardown and container reaper, with
theorems settling the specified properties.

Modelling conventions:
  - JavaScript timestamps (Date.now) are naturals (milliseconds).
  - Byte payloads are modelled as Lean strings: the server treats them as
    opaque data (stream.write passes the payload through; chunk.toString
    is the identity on the modelled text payload).
  - The wsLimiter / activeSessions Maps are modelled per key (Option of an
    entry) or as insertion-ordered association lists with JavaScript Map
    set/delete semantics.
  - Asynchronous callbacks become events processed by step functions; the
    visible effects of a handler (frames sent, stream writes, backend
    calls) are collected in order in explicit lists.
-/

namespace Minishell

/-! ## Wire protocol frames (server.js: JSON envelopes over the WebSocket) -/

/-- Server-to-client frames: connected, output, error
(server.js sends these via ws.send of a JSON envelope). -/
inductive ServerFrame where
  | connected (sessionId : String)
  | output (data : String)
  | error (data : String)
  deriving DecidableEq, Repr

/-- A parsed client-to-server JSON message. server.js reads the fields
type, data, cols, rows dynamically; absent numeric fields behave as the
falsy 0, absent data as the empty payload. -/
structure ClientMsg where
  type : String
  data : String := ""
  cols : Nat := 0
  rows : Nat := 0
  deriving DecidableEq, Repr

/-! ## Rate limiter (server.js lines 42-60: wsLimiter / checkRateLimit) -/

/-- server.js line 20: the per-origin concurrent session cap. -/
def MAX_SESSIONS_PER_IP : Nat := 3

/-- One wsLimiter entry: { count, resetTime }. -/
structure LimitEntry where
  count : Nat
  resetTime : Nat
  deriving DecidableEq, Repr

/-- checkRateLimit(ip), modelled per key: takes the current time and the
entry stored for the ip (none when the Map has no entry) and returns the
boolean result together with the entry stored after the call. The code
mutates the fetched entry in place, so the lazy window reset persists even
on the rejecting return path; a fresh default entry starts at count 0 and
is only stored on the allowing path. -/
def checkRateLimit (now : Nat) (st : Option LimitEntry) : Bool × Option LimitEntry :=
  match st with
  | none =>
      -- userLimit = { count: 0, resetTime: now + 60000 }; 0 < 10, so
      -- count++ and wsLimiter.set run, and the call returns true.
      (true, some ⟨1, now + 60000⟩)
  | some u =>
      let u := if u.resetTime < now then (⟨0, now + 60000⟩ : LimitEntry) else u
      if u.count ≥ 10 then
        (false, some u)
      else
        (true, some ⟨u.count + 1, u.resetTime⟩)

/-- The request count the current window has accumulated, after the lazy
reset (strictly past resetTime) is taken into account. -/
def effectiveCount (now : Nat) (st : Option LimitEntry) : Nat :=
  match st with
  | none => 0
  | some u => if u.resetTime < now then 0 else u.count

/-- Modelled from the spec: the admission decision the claim describes for
the rate limiter, in which a request arriving exactly at the window
boundary counts toward the new window (so at now = resetTime the origin
has spent nothing in its current window and must be allowed). -/
def claimWindowAllows (now : Nat) (st : Option LimitEntry) : Bool :=
  match st with
  | none => true
  | some u => if u.resetTime ≤ now then true else u.count < 10

/-! ## Session registry (server.js line 19: activeSessions, a Map) -/

/-- The per-session record stored in activeSessions (the container,
stream and ws handles are opaque to the registry; only the fields the
registry logic reads are modelled). -/
structure SessionInfo where
  ip : String
  startTime : Nat
  deriving DecidableEq, Repr

/-- The activeSessions Map, as an insertion-ordered association list. -/
abbrev Registry := List (String × SessionInfo)

/-- JavaScript Map.set semantics: update in place when the key is present
(keeping its position), append otherwise. -/
def mapSet (m : Registry) (k : String) (v : SessionInfo) : Registry :=
  if m.any (fun p => p.1 = k) then
    m.map (fun p => if p.1 = k then (k, v) else p)
  else
    m ++ [(k, v)]

/-- JavaScript Map.delete semantics: remove the entry with the key. -/
def mapDelete (m : Registry) (k : String) : Registry :=
  m.filter (fun p => p.1 ≠ k)

/-- JavaScript Map.get semantics on the association list. -/
def mapGet (m : Registry) (k : String) : Option SessionInfo :=
  (m.find? (fun p => p.1 = k)).map Prod.snd

/-- The concurrent-session count for an origin (server.js line 78:
Array.from(activeSessions.values()).filter(s => s.ip === clientIp)). -/
def countByOrigin (m : Registry) (ip : String) : Nat :=
  (m.filter (fun p => p.2.ip = ip)).length

/-- The operations the server performs on activeSessions: set at
registration, delete at teardown. -/
inductive RegOp where
  | set (k : String) (v : SessionInfo)
  | del (k : String)
  deriving DecidableEq, Repr

/-- Apply one registry operation. -/
def applyRegOp (m : Registry) : RegOp → Registry
  | .set k v => mapSet m k v
  | .del k => mapDelete m k

/-- Apply a sequence of registry operations, oldest first. -/
def applyRegOps (m : Registry) (ops : List RegOp) : Registry :=
  ops.foldl applyRegOp m

/-! ## Message handler (server.js lines 152-168: ws.on message) -/

/-- The visible effects of one run of the message handler: payloads
written to the container stream, resize calls issued to the container,
frames sent back to the client, and whether the catch branch logged a
message-handling error. -/
structure MsgEffect where
  streamWrites : List String := []
  resizeCalls : List (Nat × Nat) := []
  clientFrames : List ServerFrame := []
  loggedError : Bool := false
  deriving DecidableEq, Repr

/-- ws.on message: parse the JSON (none models a JSON.parse that threw,
landing in the catch that only logs); on an input-typed message write the
payload iff the stream is writable; on a resize-typed message with truthy
cols and rows issue a resize; otherwise do nothing. The handler never
sends a frame to the client. -/
def handleMessage (streamWritable : Bool) (raw : Option ClientMsg) : MsgEffect :=
  match raw with
  | none => { loggedError := true }
  | some m =>
      if m.type = "input" ∧ streamWritable then
        { streamWrites := [m.data] }
      else if m.type = "resize" ∧ m.cols ≠ 0 ∧ m.rows ≠ 0 then
        { resizeCalls := [(m.cols, m.rows)] }
      else
        {}

/-- stream.on data (server.js lines 144-149): forward the chunk to the
client as one output frame when the WebSocket is open, else drop it. -/
def handleData (wsOpen : Bool) (chunk : String) : List ServerFrame :=
  if wsOpen then [ServerFrame.output chunk] else []

/-! ## The bidirectional relay of an Active session (Stream Bridge) -/

/-- One event seen by an Active session relay: a raw message from the
client channel, or a chunk read from the container stream. -/
inductive RelayEvent where
  | fromClient (raw : Option ClientMsg)
  | fromSandbox (chunk : String)
  deriving DecidableEq, Repr

/-- Run the relay over a trace of events with the WebSocket open state
and the stream writability fixed, collecting the payloads written to the
container stream and the frames sent to the client, each in processing
order. -/
def runRelay (wsOpen streamWritable : Bool) : List RelayEvent → List String × List ServerFrame
  | [] => ([], [])
  | .fromClient raw :: es =>
      let eff := handleMessage streamWritable raw
      let rest := runRelay wsOpen streamWritable es
      (eff.streamWrites ++ rest.1, eff.clientFrames ++ rest.2)
  | .fromSandbox chunk :: es =>
      let rest := runRelay wsOpen streamWritable es
      (rest.1, handleData wsOpen chunk ++ rest.2)

/-- The payloads of the well-formed input frames of a relay trace, in
order. -/
def inputPayloads : List RelayEvent → List String
  | [] => []
  | .fromClient (some m) :: es =>
      if m.type = "input" then m.data :: inputPayloads es else inputPayloads es
  | _ :: es => inputPayloads es

/-- The chunks the container stream produced in a relay trace, in order. -/
def sandboxChunks : List RelayEvent → List String
  | [] => []
  | .fromSandbox c :: es => c :: sandboxChunks es
  | _ :: es => sandboxChunks es

/-! ## Session lifecycle events (server.js lines 171-208) -/

/-- The trigger events that can reach one established session: the close
event of its WebSocket (emitted by the transport when the channel closes,
whoever initiated it), its timeout firing, and an error event on the
container stream. -/
inductive SessionEvent where
  | clientClosed
  | timeoutFired
  | streamError
  deriving DecidableEq, Repr

/-- Observable state of one established session while its handlers run:
whether the WebSocket is still open, the frames sent so far, how many
times the teardown sequence (stream.end, container.kill,
container.remove, activeSessions.delete) has executed, whether the
session is still registered, and how many stream errors were logged. -/
structure SessionRun where
  wsOpen : Bool
  frames : List ServerFrame
  teardowns : Nat
  registered : Bool
  loggedStreamErrors : Nat
  deriving DecidableEq, Repr

/-- The timeout notice of server.js lines 174-178. -/
def timeoutMsg : String :=
  "\r\n\x1b[1;33mSession timeout (5 minutes). Disconnecting...\x1b[0m\r\n"

/-- Process one session event the way the registered handlers do:
  - timeoutFired (lines 171-181): when the WebSocket is open, send the
    timeout notice and call ws.close, after which the socket is no longer
    open; teardown itself is not run here, it waits for the close event;
  - clientClosed (lines 184-204, the ws close handler): clear the timer,
    end the stream, kill and remove the container, delete the registry
    entry — the whole teardown sequence, exactly once per delivery;
  - streamError (lines 206-208): log the error and nothing else. -/
def stepSession (s : SessionRun) : SessionEvent → SessionRun
  | .timeoutFired =>
      if s.wsOpen then
        { s with frames := s.frames ++ [ServerFrame.error timeoutMsg], wsOpen := false }
      else s
  | .clientClosed =>
      { s with wsOpen := false, teardowns := s.teardowns + 1, registered := false }
  | .streamError =>
      { s with loggedStreamErrors := s.loggedStreamErrors + 1 }

/-- Run a session from a state through a list of delivered events. -/
def runSession (s : SessionRun) (es : List SessionEvent) : SessionRun :=
  es.foldl stepSession s

/-- A freshly established Active session: socket open, nothing sent by
these handlers yet, no teardown run, registered. -/
def activeInit : SessionRun :=
  { wsOpen := true, frames := [], teardowns := 0, registered := true,
    loggedStreamErrors := 0 }

/-! ## Connection handler (server.js lines 67-232) -/

/-- How far provisioning gets for one connection attempt: docker
createContainer, container.start and container.attach can each fail, or
all succeed. -/
inductive ProvisionOutcome where
  | createFails
  | startFails
  | attachFails
  | ok
  deriving DecidableEq, Repr

/-- One externally visible step of the connection handler, in execution
order: a frame sent to the client, ws.close, a docker call, or the
registration of the session. -/
inductive ConnStep where
  | sendFrame (f : ServerFrame)
  | closeWs
  | backendCreate (sessionId : String)
  | backendStart
  | backendAttach
  | backendRemoveForce
  | registrySet (id : String)
  deriving DecidableEq, Repr

/-- The outcome of one connection attempt: the ordered steps it
performed, the registry afterwards, and the wsLimiter entry stored for
the origin afterwards. -/
structure ConnResult where
  steps : List ConnStep
  registry : Registry
  limiter : Option LimitEntry
  deriving DecidableEq, Repr

/-- The error text of the catch block of the connection handler. -/
def setupErrMsg : String := "Failed to start shell session. Please try again."

/-- The wss.on connection handler, per server.js lines 67-232:
  1. checkRateLimit: on false, send an error frame and close (lines
     71-75);
  2. the concurrent-session check against activeSessions (lines 78-83):
     at or above MAX_SESSIONS_PER_IP, send an error frame and close;
  3. otherwise create, start and attach the container; any failure lands
     in the catch block (lines 209-227), which first sends the error
     frame and closes the socket and only then force-removes the
     container (none was created when createContainer itself threw); on
     success the session is stored in activeSessions and the connected
     frame is sent (lines 132-142). -/
def handleConnection (ip sessionId : String) (now : Nat)
    (lim : Option LimitEntry) (reg : Registry) (outcome : ProvisionOutcome) : ConnResult :=
  let rl := checkRateLimit now lim
  if !rl.1 then
    { steps := [.sendFrame (.error "Rate limit exceeded. Please wait."), .closeWs],
      registry := reg, limiter := rl.2 }
  else if countByOrigin reg ip ≥ MAX_SESSIONS_PER_IP then
    { steps := [.sendFrame (.error "Maximum concurrent sessions reached."), .closeWs],
      registry := reg, limiter := rl.2 }
  else
    match outcome with
    | .createFails =>
        { steps := [.backendCreate sessionId,
                    .sendFrame (.error setupErrMsg), .closeWs],
          registry := reg, limiter := rl.2 }
    | .startFails =>
        { steps := [.backendCreate sessionId, .backendStart,
                    .sendFrame (.error setupErrMsg), .closeWs, .backendRemoveForce],
          registry := reg, limiter := rl.2 }
    | .attachFails =>
        { steps := [.backendCreate sessionId, .backendStart, .backendAttach,
                    .sendFrame (.error setupErrMsg), .closeWs, .backendRemoveForce],
          registry := reg, limiter := rl.2 }
    | .ok =>
        { steps := [.backendCreate sessionId, .backendStart, .backendAttach,
                    .registrySet sessionId, .sendFrame (.connected sessionId)],
          registry := mapSet reg sessionId ⟨ip, now⟩, limiter := rl.2 }

/-- Whether a step sends an error frame to the client. -/
def isErrorFrame : ConnStep → Bool
  | .sendFrame (.error _) => true
  | _ => false

/-- Whether a step is the forced removal of the container. -/
def isRemoveForce : ConnStep → Bool
  | .backendRemoveForce => true
  | _ => false

/-- Whether a step is a docker createContainer call. -/
def isBackendCreate : ConnStep → Bool
  | .backendCreate _ => true
  | _ => false

/-- Index of the first step satisfying a test, if any. -/
def firstIdx (p : ConnStep → Bool) : List ConnStep → Option Nat
  | [] => none
  | s :: ss => if p s then some 0 else (firstIdx p ss).map (· + 1)

/-- The claim that the forced removal of the container happens before the
error frame is sent: the first removeForce step strictly precedes the
first error frame step. -/
def removedBeforeErrorFrame (steps : List ConnStep) : Bool :=
  match firstIdx isRemoveForce steps, firstIdx isErrorFrame steps with
  | some i, some j => decide (i < j)
  | _, _ => false

/-- The error frame precedes the forced removal of the container. -/
def errorFrameBeforeRemoval (steps : List ConnStep) : Bool :=
  match firstIdx isErrorFrame steps, firstIdx isRemoveForce steps with
  | some i, some j => decide (i < j)
  | _, _ => false

/-! ## Reaper (server.js lines 248-271: cleanupOldContainers) -/

/-- What docker.listContainers reports for one tagged container: its id
and its created-at label when present. -/
structure ContainerInfo where
  id : String
  createdAt : Option Nat
  deriving DecidableEq, Repr

/-- The removal test of the sweep: the container carries a created-at
label and its age at the current time exceeds one hour (3600000 ms).
JavaScript computes a signed difference, so a timestamp at or after now
gives a non-positive age and is kept, exactly as truncated Nat
subtraction gives 0 here. -/
def isExpired (now : Nat) (c : ContainerInfo) : Bool :=
  match c.createdAt with
  | some t => 3600000 < now - t
  | none => false

/-- cleanupOldContainers: walk the listed tagged containers in order and
force-remove the expired ones; returns the ids removed (in order) and the
containers the backend still holds afterwards. -/
def reapSweep (now : Nat) : List ContainerInfo → List String × List ContainerInfo
  | [] => ([], [])
  | c :: cs =>
      let rest := reapSweep now cs
      if isExpired now c then (c.id :: rest.1, rest.2)
      else (rest.1, c :: rest.2)

/-! ## Theorems -/

/-- The teardown sequence runs once per delivered close event: after any
run, the teardown count grew by exactly the number of clientClosed events
in the trace, whatever timeouts and stream errors were interleaved. -/
lemma runSession_teardowns (es : List SessionEvent) (s : SessionRun) :
    (runSession s es).teardowns = s.teardowns + es.count SessionEvent.clientClosed := by
  induction es generalizing s with
  | nil => simp [runSession]
  | cons e es ih =>
      have h : runSession s (e :: es) = runSession (stepSession s e) es := rfl
      cases e with
      | timeoutFired =>
          rw [h, ih, stepSession]
          split <;> simp [List.count_cons]
      | clientClosed =>
          rw [h, ih, stepSession]
          simp [List.count_cons]
          omega
      | streamError =>
          rw [h, ih, stepSession]
          simp [List.count_cons]

/-- Claim C1: for every session, the teardown sequence (close the
attached stream, destroy the sandbox, deregister the session id) executes
at most once, whatever interleaving of timeoutFired and streamError
events occurs around it — given the transport guarantee that the close
event of one WebSocket is delivered at most once (the only handler that
runs teardown is the ws close handler). -/
theorem teardown_at_most_once (es : List SessionEvent)
    (h : es.count SessionEvent.clientClosed ≤ 1) :
    (runSession activeInit es).teardowns ≤ 1 := by
  rw [runSession_teardowns]
  simpa [activeInit] using h

/-- Witness for C1: a race of all three triggers, with the close event
delivered once, still tears down at most once. -/
theorem teardown_at_most_once_w :
    ([SessionEvent.timeoutFired, SessionEvent.streamError, SessionEvent.clientClosed,
      SessionEvent.timeoutFired, SessionEvent.streamError].count
        SessionEvent.clientClosed ≤ 1) ∧
    (runSession activeInit
      [SessionEvent.timeoutFired, SessionEvent.streamError, SessionEvent.clientClosed,
       SessionEvent.timeoutFired, SessionEvent.streamError]).teardowns ≤ 1 :=
  ⟨by decide,
   teardown_at_most_once
     [SessionEvent.timeoutFired, SessionEvent.streamError, SessionEvent.clientClosed,
      SessionEvent.timeoutFired, SessionEvent.streamError] (by decide)⟩

/-- Counterexample for C2: a stream error delivered to a fresh Active
session runs no teardown, leaves the session registered and leaves the
WebSocket open — it does not trigger the Closing transition. -/
theorem streamError_cex :
    (runSession activeInit [SessionEvent.streamError]).teardowns = 0 ∧
    (runSession activeInit [SessionEvent.streamError]).registered = true ∧
    (runSession activeInit [SessionEvent.streamError]).wsOpen = true := by
  decide

/-- Claim C2 (amended): an error on the attached sandbox stream is logged
and nothing else: it does not run teardown, does not deregister the
session and does not close the channel; the session is only torn down
when its channel close event arrives (e.g. after the timeout closes the
socket). -/
theorem streamError_logged_only (s : SessionRun) :
    stepSession s SessionEvent.streamError =
      { s with loggedStreamErrors := s.loggedStreamErrors + 1 } :=
  rfl

/-- Claim C5: with the session Active (socket open, stream writable), the
relay is a pure in-order passthrough: the payloads written to the sandbox
stream are exactly the input-frame payloads in receipt order, unmodified,
and the frames sent to the client are exactly the chunks read from the
sandbox stream, each wrapped in one output frame, in read order,
unmodified. -/
theorem relay_passthrough (es : List RelayEvent) :
    runRelay true true es =
      (inputPayloads es, (sandboxChunks es).map ServerFrame.output) := by
  induction es with
  | nil => rfl
  | cons e es ih =>
      cases e with
      | fromSandbox chunk =>
          simp [runRelay, handleData, inputPayloads, sandboxChunks, ih]
      | fromClient raw =>
          cases raw with
          | none => simp [runRelay, handleMessage, inputPayloads, sandboxChunks, ih]
          | some m =>
              by_cases h : m.type = "input"
              · simp [runRelay, handleMessage, inputPayloads, sandboxChunks, h, ih]
              · by_cases h2 : m.type = "resize" ∧ m.cols ≠ 0 ∧ m.rows ≠ 0 <;>
                  simp [runRelay, handleMessage, inputPayloads, sandboxChunks, h, h2, ih]

/-- Claim C7: one sweep force-removes exactly the tagged containers whose
labelled age exceeds the one-hour threshold, and a second sweep over the
resulting backend state removes nothing and changes nothing: already
removed containers are simply no longer listed. -/
theorem reapSweep_exact_and_idempotent (now : Nat) (cs : List ContainerInfo) :
    (reapSweep now cs).1 = (cs.filter (isExpired now)).map ContainerInfo.id ∧
    (reapSweep now (reapSweep now cs).2).1 = [] ∧
    (reapSweep now (reapSweep now cs).2).2 = (reapSweep now cs).2 := by
  induction cs with
  | nil => simp [reapSweep]
  | cons c cs ih =>
      by_cases h : isExpired now c <;>
        simp [reapSweep, h, ih.1, ih.2.1, ih.2.2, List.filter_cons]

/-- Claim C3: a connection from an origin already holding at least
MAX_SESSIONS_PER_IP registered sessions, once past the rate limiter, is
rejected: the handler sends exactly one error frame and closes the
channel, performs no backend call (in particular creates no sandbox), and
the registry is unchanged. -/
theorem cap_rejection (ip sessionId : String) (now : Nat) (lim : Option LimitEntry)
    (reg : Registry) (outcome : ProvisionOutcome)
    (hrl : (checkRateLimit now lim).1 = true)
    (hcap : MAX_SESSIONS_PER_IP ≤ countByOrigin reg ip) :
    (handleConnection ip sessionId now lim reg outcome).steps =
      [ConnStep.sendFrame (ServerFrame.error "Maximum concurrent sessions reached."),
       ConnStep.closeWs] ∧
    (handleConnection ip sessionId now lim reg outcome).registry = reg := by
  simp [handleConnection, hrl, hcap]

/-- Witness for C3: the fourth attempt of origin 1.2.3.4 against a
registry already holding its three sessions is turned away with a single
error frame and no registry change. -/
theorem cap_rejection_w :
    (handleConnection "1.2.3.4" "s4" 0 none
      [("a", ⟨"1.2.3.4", 0⟩), ("b", ⟨"1.2.3.4", 0⟩), ("c", ⟨"1.2.3.4", 0⟩)] .ok).steps =
      [ConnStep.sendFrame (ServerFrame.error "Maximum concurrent sessions reached."),
       ConnStep.closeWs] ∧
    (handleConnection "1.2.3.4" "s4" 0 none
      [("a", ⟨"1.2.3.4", 0⟩), ("b", ⟨"1.2.3.4", 0⟩), ("c", ⟨"1.2.3.4", 0⟩)] .ok).registry =
      [("a", ⟨"1.2.3.4", 0⟩), ("b", ⟨"1.2.3.4", 0⟩), ("c", ⟨"1.2.3.4", 0⟩)] :=
  cap_rejection "1.2.3.4" "s4" 0 none
    [("a", ⟨"1.2.3.4", 0⟩), ("b", ⟨"1.2.3.4", 0⟩), ("c", ⟨"1.2.3.4", 0⟩)] .ok
    (by decide) (by decide)

/-- Counterexample for C4: when container.start fails after a successful
create, the handler does send the error frame and does force-remove the
container, but the removal comes after the frame, not before it as
claimed. -/
theorem removal_order_cex :
    removedBeforeErrorFrame
      (handleConnection "1.2.3.4" "s0" 0 none [] ProvisionOutcome.startFails).steps = false ∧
    (handleConnection "1.2.3.4" "s0" 0 none [] ProvisionOutcome.startFails).steps.any
      isRemoveForce = true ∧
    (handleConnection "1.2.3.4" "s0" 0 none [] ProvisionOutcome.startFails).steps.any
      isErrorFrame = true := by
  decide

/-- Claim C4 (amended): whenever start or attach fails after create
succeeded, the handler sends exactly one error frame, closes the channel,
and then forcibly removes the just-created sandbox — the removal follows
the error frame rather than preceding it — and the registry never gains
an entry for that attempt. -/
theorem setup_failure_cleanup (ip sessionId : String) (now : Nat) (lim : Option LimitEntry)
    (reg : Registry) (outcome : ProvisionOutcome)
    (hrl : (checkRateLimit now lim).1 = true)
    (hcap : countByOrigin reg ip < MAX_SESSIONS_PER_IP)
    (hout : outcome = ProvisionOutcome.startFails ∨ outcome = ProvisionOutcome.attachFails) :
    errorFrameBeforeRemoval (handleConnection ip sessionId now lim reg outcome).steps = true ∧
    ((handleConnection ip sessionId now lim reg outcome).steps.filter isErrorFrame).length
      = 1 ∧
    ((handleConnection ip sessionId now lim reg outcome).steps.filter isRemoveForce).length
      = 1 ∧
    (handleConnection ip sessionId now lim reg outcome).registry = reg := by
  rcases hout with rfl | rfl <;>
    simp [handleConnection, hrl, Nat.not_le.2 hcap, errorFrameBeforeRemoval, firstIdx,
      isErrorFrame, isRemoveForce, setupErrMsg, List.filter_cons]

/-- Witness for C4 (amended): a concrete start failure with an empty
registry. -/
theorem setup_failure_cleanup_w :
    errorFrameBeforeRemoval
      (handleConnection "1.2.3.4" "s0" 0 none [] ProvisionOutcome.startFails).steps = true ∧
    ((handleConnection "1.2.3.4" "s0" 0 none [] ProvisionOutcome.startFails).steps.filter
      isErrorFrame).length = 1 ∧
    ((handleConnection "1.2.3.4" "s0" 0 none [] ProvisionOutcome.startFails).steps.filter
      isRemoveForce).length = 1 ∧
    (handleConnection "1.2.3.4" "s0" 0 none [] ProvisionOutcome.startFails).registry = [] :=
  setup_failure_cleanup "1.2.3.4" "s0" 0 none [] ProvisionOutcome.startFails
    (by decide) (by decide) (Or.inl rfl)

/-- Counterexample for C6: per the claim, a request arriving exactly at
the window boundary counts toward the new window, so an origin that spent
its budget in the old window must be admitted at that instant; the code
resets only strictly past resetTime, so it rejects the request and leaves
the exhausted entry in place. -/
theorem rateLimit_boundary_cex :
    claimWindowAllows 1000 (some ⟨10, 1000⟩) = true ∧
    (checkRateLimit 1000 (some ⟨10, 1000⟩)).1 = false ∧
    (checkRateLimit 1000 (some ⟨10, 1000⟩)).2 = some ⟨10, 1000⟩ := by
  decide

/-- Claim C6 (amended): the rate limiter rejects exactly when the count
the current window has accumulated — with the lazy reset applied only
when now is strictly past resetTime — has reached the budget of 10; a
request arriving exactly at the window boundary counts toward the old
window: when the entry is not yet strictly expired and under budget, the
stored window keeps its reset time and only its count grows. -/
theorem checkRateLimit_characterisation (now : Nat) (st : Option LimitEntry) :
    ((checkRateLimit now st).1 = false ↔ 10 ≤ effectiveCount now st) ∧
    (∀ u, st = some u → ¬ u.resetTime < now → u.count < 10 →
      (checkRateLimit now st).2 = some ⟨u.count + 1, u.resetTime⟩) := by
  constructor
  · cases st with
    | none => simp [checkRateLimit, effectiveCount]
    | some u =>
        by_cases hr : u.resetTime < now
        · simp [checkRateLimit, effectiveCount, hr]
        · by_cases hc : 10 ≤ u.count <;>
            simp [checkRateLimit, effectiveCount, hr, hc]
  · rintro u rfl hr hc
    simp [checkRateLimit, hr, Nat.not_le.2 hc]

/-- Witness for C6 (amended): at the exact boundary now = resetTime = 5
with 3 spent, the request is counted into the old window: count becomes 4
and the reset time stays 5. -/
theorem checkRateLimit_characterisation_w :
    (checkRateLimit 5 (some ⟨3, 5⟩)).2 = some ⟨4, 5⟩ :=
  (checkRateLimit_characterisation 5 (some ⟨3, 5⟩)).2 ⟨3, 5⟩ rfl (by decide) (by decide)

/-- Updating an existing key in place leaves the list of stored ids
unchanged. -/
lemma keys_update (m : Registry) (k : String) (v : SessionInfo) :
    (m.map (fun p => if p.1 = k then (k, v) else p)).map Prod.fst = m.map Prod.fst := by
  induction m with
  | nil => rfl
  | cons p m ih => by_cases h : p.1 = k <;> simp [h, ih]

/-- One registry operation preserves distinctness of the stored ids. -/
lemma nodup_applyRegOp (m : Registry) (op : RegOp)
    (h : (m.map Prod.fst).Nodup) : ((applyRegOp m op).map Prod.fst).Nodup := by
  cases op with
  | set k v =>
      rw [applyRegOp, mapSet]
      by_cases hk : m.any (fun p => p.1 = k)
      · rw [if_pos hk, keys_update]
        exact h
      · rw [if_neg hk]
        simp only [List.any_eq_true, decide_eq_true_eq, not_exists, not_and] at hk
        have hnk : k ∉ m.map Prod.fst := by
          simp only [List.mem_map, not_exists, not_and]
          intro p hp hpk
          exact hk p hp hpk
        simp [List.nodup_append, h, hnk]
  | del k =>
      rw [applyRegOp, mapDelete]
      exact h.sublist ((m.filter_sublist).map Prod.fst)

/-- The lookup after an in-place update of a present key finds the new
record. -/
lemma find_update (m : Registry) (k : String) (v : SessionInfo)
    (h : m.any (fun p => p.1 = k) = true) :
    (m.map (fun p => if p.1 = k then (k, v) else p)).find?
      (fun p => p.1 = k) = some (k, v) := by
  induction m with
  | nil => simp at h
  | cons p m ih =>
      by_cases hp : p.1 = k
      · simp [hp]
      · have htail : (m.any fun q => q.1 = k) = true := by
          rcases List.any_eq_true.1 h with ⟨q, hq, hqk⟩
          rcases List.mem_cons.1 hq with rfl | hm
          · exact absurd (of_decide_eq_true hqk) hp
          · exact List.any_eq_true.2 ⟨q, hm, hqk⟩
        rw [List.map_cons, if_neg hp, List.find?_cons_of_neg _ (by simpa using hp)]
        exact ih htail

/-- The lookup after appending a fresh key finds the appended record. -/
lemma find_append (m : Registry) (k : String) (v : SessionInfo)
    (h : m.any (fun p => p.1 = k) = false) :
    ((m ++ [(k, v)]).find? (fun p => p.1 = k)) = some (k, v) := by
  induction m with
  | nil => simp
  | cons p m ih =>
      simp only [List.any_cons, Bool.or_eq_false_iff, decide_eq_false_iff_not] at h
      simp [h.1, ih h.2]

/-- Map.set always succeeds, and afterwards the key maps to the new
record — on a duplicate id the previous record is silently replaced. -/
lemma mapGet_mapSet (m : Registry) (k : String) (v : SessionInfo) :
    mapGet (mapSet m k v) k = some v := by
  rw [mapGet, mapSet]
  by_cases hk : m.any (fun p => p.1 = k)
  · rw [if_pos hk, find_update m k v hk]
    rfl
  · rw [if_neg hk, find_append m k v (Bool.not_eq_true _ ▸ hk)]
    rfl

/-- Counterexample for C8: registering a second session under an id the
registry already holds does not fail — mapSet returns the updated
registry in which the previous record for that id has been silently
replaced by the new one. -/
theorem register_silent_replace_cex :
    mapSet (mapSet [] "a" ⟨"1.1.1.1", 0⟩) "a" ⟨"2.2.2.2", 7⟩ = [("a", ⟨"2.2.2.2", 7⟩)] ∧
    mapGet (mapSet (mapSet [] "a" ⟨"1.1.1.1", 0⟩) "a" ⟨"2.2.2.2", 7⟩) "a" =
      some ⟨"2.2.2.2", 7⟩ := by
  decide

/-- Claim C8 (amended): every state of the registry reachable from the
empty map by the set and delete operations the server performs holds at
most one entry per session id (its stored ids are distinct), and set on
an already-present id succeeds silently, replacing the stored record with
the new one instead of failing. -/
theorem registry_at_most_one_per_id (ops : List RegOp) (m : Registry) (k : String)
    (v : SessionInfo) :
    ((applyRegOps [] ops).map Prod.fst).Nodup ∧
    mapGet (mapSet m k v) k = some v := by
  constructor
  · have hgen : ∀ (l : List RegOp) (m0 : Registry), (m0.map Prod.fst).Nodup →
        ((applyRegOps m0 l).map Prod.fst).Nodup := by
      intro l
      induction l with
      | nil => intro m0 h0; exact h0
      | cons op l ih =>
          intro m0 h0
          exact ih (applyRegOp m0 op) (nodup_applyRegOp m0 op h0)
    exact hgen ops [] (by simp)
  · exact mapGet_mapSet m k v

/-- The count an optional limiter entry stores. -/
def limCount : Option LimitEntry → Nat
  | none => 0
  | some u => u.count

/-- A passing rate check stores the incremented window count. -/
lemma checkRateLimit_count (now : Nat) (st : Option LimitEntry)
    (h : (checkRateLimit now st).1 = true) :
    limCount (checkRateLimit now st).2 = effectiveCount now st + 1 := by
  cases st with
  | none => simp [checkRateLimit, effectiveCount, limCount]
  | some u =>
      by_cases hr : u.resetTime < now
      · simp [checkRateLimit, effectiveCount, limCount, hr]
      · by_cases hc : 10 ≤ u.count
        · simp [checkRateLimit, hr, hc] at h
        · simp [checkRateLimit, effectiveCount, limCount, hr, hc]

/-- Claim C9: every connection attempt that passes the rate check leaves
the origin with one more unit of its window budget spent, whatever
happens afterwards — session-cap rejection, any provisioning failure, or
success — the handler never rolls the counter back. -/
theorem rate_budget_consumed (ip sessionId : String) (now : Nat) (lim : Option LimitEntry)
    (reg : Registry) (outcome : ProvisionOutcome)
    (h : (checkRateLimit now lim).1 = true) :
    limCount (handleConnection ip sessionId now lim reg outcome).limiter =
      effectiveCount now lim + 1 := by
  have hcount := checkRateLimit_count now lim h
  cases outcome <;> by_cases hcap : MAX_SESSIONS_PER_IP ≤ countByOrigin reg ip <;>
    simp [handleConnection, h, hcap, hcount]

/-- Witness for C9: a fourth attempt from an origin already at the
session cap is rejected, yet its rate-limit counter has been spent. -/
theorem rate_budget_consumed_w :
    limCount (handleConnection "1.2.3.4" "s4" 0 none
      [("a", ⟨"1.2.3.4", 0⟩), ("b", ⟨"1.2.3.4", 0⟩), ("c", ⟨"1.2.3.4", 0⟩)]
      ProvisionOutcome.ok).limiter = effectiveCount 0 none + 1 :=
  rate_budget_consumed "1.2.3.4" "s4" 0 none
    [("a", ⟨"1.2.3.4", 0⟩), ("b", ⟨"1.2.3.4", 0⟩), ("c", ⟨"1.2.3.4", 0⟩)]
    ProvisionOutcome.ok (by decide)

/-- Claim C10: a message that fails JSON parsing, or whose type is
neither input nor resize, or that is an input frame while the stream is
not writable, is ignored: nothing is written to the sandbox stream, no
resize is issued, and no frame of any kind is sent back to the client
(at most a server-side log entry is produced). -/
theorem ignored_messages (writable : Bool) (raw : Option ClientMsg)
    (h : raw = none ∨
         (∃ m, raw = some m ∧ m.type ≠ "input" ∧ m.type ≠ "resize") ∨
         (∃ m, raw = some m ∧ m.type = "input" ∧ writable = false)) :
    (handleMessage writable raw).streamWrites = [] ∧
    (handleMessage writable raw).resizeCalls = [] ∧
    (handleMessage writable raw).clientFrames = [] := by
  rcases h with rfl | ⟨m, rfl, h1, h2⟩ | ⟨m, rfl, h1, h2⟩
  · simp [handleMessage]
  · simp [handleMessage, h1, h2]
  · subst h2
    simp [handleMessage, h1]

/-- Witness for C10: an unparseable message produces no write, no resize
and no client frame. -/
theorem ignored_messages_w :
    (handleMessage true none).streamWrites = [] ∧
    (handleMessage true none).resizeCalls = [] ∧
    (handleMessage true none).clientFrames = [] :=
  ignored_messages true none (Or.inl rfl)

end Minishell
